import Mathlib

/-!
Shallow embedding of the ResumeAnalyzer skill-gap engine.

The definitions below are direct translations of the Python sources:
* `scripts/recommender_engine.py` (VercelNext.js version): entity linking,
  proficiency detection, weighted gap analysis / match percentage, and the
  fallback recommendations.
* `src/gap_analyzer.py` (Streamlit version): per-requirement gap
  classification and the readiness score.
* `src/recommendation_engine.py` (Streamlit version): course lookup,
  course scoring, and budget/time-constrained recommendation selection.
* `src/skill_extractor.py` (Streamlit version): the phase-1 guard and the
  confidence scorer.

Python floats are modelled as exact rationals (`ℚ`), Python ints as `ℤ`/`ℕ`,
dictionaries as association functions (`String → Option _`), and `None`
returns as `Option`.
-/

namespace ResumeAnalyzer

/-- Python `str.lower()` on a character list (ASCII inputs in this repo). -/
def lowerL (cs : List Char) : List Char := cs.map Char.toLower

/-- Python `str.lower()` on a string. -/
def lower (s : String) : String := ⟨lowerL s.toList⟩

/-- Does `pat` occur as a contiguous sublist of `cs`?  This is Python's
`pat in s` substring test, written out on character lists. -/
def containsSub (pat : List Char) : List Char → Bool
  | [] => pat.isEmpty
  | c :: cs => pat.isPrefixOf (c :: cs) || containsSub pat cs

/-- Python `keyword in context` on strings (substring containment). -/
def strContains (s pat : String) : Bool := containsSub pat.toList s.toList

/-! ## VercelNext `RecommenderEngine.get_recommendations`: weighted match score

From `scripts/recommender_engine.py`.  The proficiency map is
`{"Beginner": 1, "Intermediate": 2, "Advanced": 3, "Expert": 4}`; the user's
level is looked up with default 1, the required level with default 3
(`default_required_proficiency_score`), and every required skill carries
`required_proficiency = "Advanced"`. -/

/-- `proficiency_map.get(level, dflt)`. -/
def proficiency_map_get (level : String) (dflt : ℕ) : ℕ :=
  if level = "Beginner" then 1
  else if level = "Intermediate" then 2
  else if level = "Advanced" then 3
  else if level = "Expert" then 4
  else dflt

/-- One entry of the `required_skills` list built from the KG query
(`uri`, `importance` — defaulted to 0.5 when null — and the constant
`required_proficiency = "Advanced"`). -/
structure RequiredSkill where
  uri : String
  importance : ℚ
  required_proficiency : String
deriving Repr, DecidableEq

/-- The contribution of one required skill to `total_matched_importance`:
full `importance` when the user's proficiency meets the requirement,
`importance × (user/required)` when below it, and 0 when the skill is
absent from `user_skill_map`. -/
def matched_contribution (user_map : String → Option String) (r : RequiredSkill) : ℚ :=
  match user_map r.uri with
  | none => 0
  | some lvl =>
    let u : ℕ := proficiency_map_get lvl 1
    let q : ℕ := proficiency_map_get r.required_proficiency 3
    if q ≤ u then r.importance else r.importance * ((u : ℚ) / (q : ℚ))

/-- `total_matched_importance` accumulated over the required-skill loop. -/
def total_matched_importance (reqs : List RequiredSkill)
    (user_map : String → Option String) : ℚ :=
  (reqs.map (matched_contribution user_map)).sum

/-- `total_required_importance = sum(skill['importance'] for skill in required_skills)`. -/
def total_required_importance (reqs : List RequiredSkill) : ℚ :=
  (reqs.map (·.importance)).sum

/-- `weighted_skill_match_percentage = (matched / total) * 100 if total > 0 else 0`. -/
def skill_match_percentage (reqs : List RequiredSkill)
    (user_map : String → Option String) : ℚ :=
  if 0 < total_required_importance reqs then
    total_matched_importance reqs user_map / total_required_importance reqs * 100
  else 0

/-! ## Streamlit `SkillGapAnalyzer._analyze_skill_gap`

From `src/gap_analyzer.py`.  `level_hierarchy` is
`{"Beginner": 1, "Familiar": 2, "Intermediate": 3, "Advanced": 4, "Expert": 5}`. -/

/-- `self.level_hierarchy.get(level, dflt)`. -/
def level_hierarchy_get (level : String) (dflt : ℕ) : ℕ :=
  if level = "Beginner" then 1
  else if level = "Familiar" then 2
  else if level = "Intermediate" then 3
  else if level = "Advanced" then 4
  else if level = "Expert" then 5
  else dflt

/-- One entry of a role's `required_skills` / `preferred_skills` list. -/
structure ReqSkillEntry where
  skill : String
  level : String
  priority : ℤ
deriving Repr, DecidableEq

/-- An extracted-resume skill as stored in `skill_lookup` (the `level`
field models `current_skill.get('level', 'Beginner')`). -/
structure ExtractedSkill where
  name : String
  level : String
deriving Repr, DecidableEq

/-- A gap record as returned by `_analyze_skill_gap` (fields used by the
engine; the formatted `skillId`/`rationale` strings are omitted). -/
structure SkillGap where
  skillName : String
  targetLevel : String
  currentLevel : String
  priority : ℤ
  gapType : String
  skillType : String
  level_gap : ℤ
deriving Repr, DecidableEq

/-- `SkillGapAnalyzer._analyze_skill_gap`: `none` means the requirement is
fully met (a Strength — no gap record is emitted). -/
def analyze_skill_gap (required_skill : ReqSkillEntry)
    (skill_lookup : String → Option ExtractedSkill) (skill_type : String) :
    Option SkillGap :=
  match skill_lookup (lower required_skill.skill) with
  | none =>
    some { skillName := required_skill.skill
           targetLevel := required_skill.level
           currentLevel := "None"
           priority := required_skill.priority
           gapType := "missing"
           skillType := skill_type
           level_gap := (level_hierarchy_get required_skill.level 3 : ℤ) }
  | some current_skill =>
    let current_level_num := level_hierarchy_get current_skill.level 1
    let required_level_num := level_hierarchy_get required_skill.level 3
    if current_level_num < required_level_num then
      some { skillName := required_skill.skill
             targetLevel := required_skill.level
             currentLevel := current_skill.level
             priority := required_skill.priority
             gapType := "level"
             skillType := skill_type
             level_gap := (required_level_num : ℤ) - (current_level_num : ℤ) }
    else none

/-! ## Streamlit `SkillGapAnalyzer.get_gap_summary`: readiness score

`total_weight = Σ (6 - priority)`, `max_possible_weight = 5·len(gaps)`,
`gap_impact = total_weight / max_possible_weight * 100`,
`readiness_score = int(max(0, 100 - gap_impact))` (100 for an empty list). -/

/-- `sum(6 - g['priority'] for g in gaps)` as an exact rational. -/
def gaps_total_weight (gaps : List SkillGap) : ℚ :=
  (gaps.map (fun g => (6 : ℚ) - (g.priority : ℚ))).sum

/-- The exact (pre-`int()`) readiness score of `get_gap_summary`. -/
def readiness_score_exact (gaps : List SkillGap) : ℚ :=
  if gaps = [] then 100
  else
    let max_possible_weight : ℚ := (gaps.length : ℚ) * 5
    if 0 < max_possible_weight then
      max 0 (100 - gaps_total_weight gaps / max_possible_weight * 100)
    else 100

/-- `int(readiness_score)`: Python truncation toward zero; the value is
always nonnegative here, so this is the floor. -/
def readiness_score (gaps : List SkillGap) : ℤ :=
  ⌊readiness_score_exact gaps⌋

/-! ## VercelNext `RecommenderEngine.link_entities_to_kg`

From `scripts/recommender_engine.py`.  Each input candidate carries its
row of cosine similarities against the cached KG skills; `np.argmax`
returns the first index attaining the maximum. -/

/-- A cached knowledge-graph skill (`self.kg_skills_cache` entry). -/
structure KGSkill where
  uri : String
  name : String
deriving Repr, DecidableEq

/-- An extracted skill handed to the linker (name, similarity row). -/
structure LinkCandidate where
  name : String
  sims : List ℚ
deriving Repr, DecidableEq

/-- An accepted link (the fields the engine computes from the inputs;
confidence/context/proficiency are copied through unchanged and omitted). -/
structure LinkedSkill where
  input_skill : String
  kg_skill_uri : String
  kg_skill_name : String
  similarity_score : ℚ
deriving Repr, DecidableEq

/-- Auxiliary scan for `np.argmax`: strict improvement only, so the first
index attaining the maximum wins. -/
def argmaxAux (i bi : ℕ) (bv : ℚ) : List ℚ → ℕ
  | [] => bi
  | x :: xs => if bv < x then argmaxAux (i + 1) i x xs else argmaxAux (i + 1) bi bv xs

/-- `np.argmax(similarities[i])` (0 on an empty row, which the engine
never produces: the KG cache is always non-empty). -/
def argmaxIdx : List ℚ → ℕ
  | [] => 0
  | x :: xs => argmaxAux 1 0 x xs

/-- `best_similarity = similarities[i][best_match_idx]`. -/
def bestSimilarity (sims : List ℚ) : ℚ := sims.getD (argmaxIdx sims) 0

/-- The linked-skill record built in the acceptance branch. -/
def mk_linked_skill (kg : List KGSkill) (c : LinkCandidate) : LinkedSkill :=
  let bi := argmaxIdx c.sims
  let kg_skill := kg.getD bi ⟨"", ""⟩
  { input_skill := c.name
    kg_skill_uri := kg_skill.uri
    kg_skill_name := kg_skill.name
    similarity_score := bestSimilarity c.sims }

/-- `RecommenderEngine.link_entities_to_kg`: a candidate is appended to
`linked_skills` iff its best similarity is ≥ `self.similarity_threshold`;
a candidate below the threshold is only logged and produces no output. -/
def link_entities_to_kg (cands : List LinkCandidate) (kg : List KGSkill)
    (threshold : ℚ) : List LinkedSkill :=
  cands.foldr
    (fun c acc =>
      if threshold ≤ bestSimilarity c.sims then mk_linked_skill kg c :: acc else acc)
    []

/-! ## Streamlit `SkillExtractor._score_skills`

From `src/skill_extractor.py`.  The per-skill inputs are: the primary
`extraction_method`, the optional deduplicated `extraction_methods` list
(present only when `_normalize_and_merge_skills` merged at least two raw
mentions), the occurrence count of the skill name in the lowercased text,
the evidence-list length, the number of evidence snippets whose ±100-char
window matched a positive-context pattern, and the category string. -/

/-- `method_scores.get(extraction_method, 0.5)`. -/
def method_score (m : String) : ℚ :=
  if m = "taxonomy" then 0.8
  else if m = "pattern" then 0.7
  else if m = "ner" then 0.6
  else if m = "section" then 0.9
  else 0.5

/-- `base_score` after the multiple-extraction-methods boost:
`min(base + 0.1 * len(extraction_methods), 1.0)` when the field exists,
plain `base` otherwise. -/
def base_score (m : String) (methods : Option (List String)) : ℚ :=
  match methods with
  | none => method_score m
  | some ms => min (method_score m + (ms.length : ℚ) * 0.1) 1

/-- `frequency_boost = min(frequency * 0.05, 0.2)`. -/
def frequency_boost (frequency : ℕ) : ℚ := min ((frequency : ℚ) * 0.05) 0.2

/-- `evidence_boost = min(len(evidence) * 0.03, 0.15)`. -/
def evidence_boost (evidence_len : ℕ) : ℚ := min ((evidence_len : ℚ) * 0.03) 0.15

/-- `_calculate_context_boost`: +0.05 per evidence snippet with a positive
context hit, capped at 0.2. -/
def context_boost (context_hits : ℕ) : ℚ := min ((context_hits : ℚ) * 0.05) 0.2

/-- `category_boost = 0.1 if category.startswith('technical') else 0.05`. -/
def category_boost (category : String) : ℚ :=
  if ("technical".toList).isPrefixOf category.toList then 0.1 else 0.05

/-- The final confidence computed by `_score_skills`:
`min(base_score + frequency_boost + evidence_boost + context_boost +
category_boost, 1.0)`. -/
def final_confidence (m : String) (methods : Option (List String))
    (frequency evidence_len context_hits : ℕ) (category : String) : ℚ :=
  min (base_score m methods + frequency_boost frequency + evidence_boost evidence_len
        + context_boost context_hits + category_boost category) 1

/-- The confidence formula as the SPEC states it (for comparison with
`final_confidence`): `clamp(base + 0.1 × (distinct methods − 1) +
frequency_bonus + evidence_bonus + context_bonus + category_bonus, 0, 1)`,
where the distinct-method count is `len(extraction_methods)` when the
field exists and 1 otherwise. -/
def spec_confidence (m : String) (methods : Option (List String))
    (frequency evidence_len context_hits : ℕ) (category : String) : ℚ :=
  let distinct : ℕ := match methods with | none => 1 | some ms => ms.length
  max 0 (min (method_score m + ((distinct : ℚ) - 1) * 0.1 + frequency_boost frequency
        + evidence_boost evidence_len + context_boost context_hits
        + category_boost category) 1)

/-! ## Streamlit `SkillExtractor.extract_skills_phase1`: the input guard

`if not resume_text or len(resume_text.strip()) < 50: return []` — the
function returns an ordinary empty list and has no raising path.  The rest
of the pipeline is abstracted as a parameter. -/

/-- The spec's `InputError` (the code never constructs one). -/
inductive InputError where
  | emptyOrTooShort : InputError
deriving Repr, DecidableEq

/-- `extract_skills_phase1`, with its result wrapped in `Except` so that a
raised `InputError` would be observable: the source returns `[]` from the
guard and otherwise runs the extraction pipeline; it never raises. -/
def extract_skills_phase1 (pipeline : String → List ExtractedSkill)
    (resume_text : String) : Except InputError (List ExtractedSkill) :=
  if resume_text = "" ∨ resume_text.trim.length < 50 then Except.ok []
  else Except.ok (pipeline resume_text)

/-! ## VercelNext `RecommenderEngine._detect_proficiency_level`

From `scripts/recommender_engine.py`.  The years cue is the regex
`(\d+)\+?\s*(year|yr)s?\s*of\s*experience` searched in the lowercased,
space-joined context; keyword tiers are substring checks. -/

/-- Python's `\s` character class. -/
def pyIsSpace (c : Char) : Bool :=
  c = ' ' || c = '\t' || c = '\n' || c = '\r' || c = Char.ofNat 11 || c = Char.ofNat 12

/-- Numeric value of a digit run (the regex group `(\d+)`). -/
def digitsVal (ds : List Char) : ℕ :=
  ds.foldl (fun n c => 10 * n + (c.toNat - '0'.toNat)) 0

/-- Match `(\d+)\+?\s*(year|yr)s?\s*of\s*experience` anchored at the head
of `cs`, returning the captured number.  Greedy munching is exact here:
each optional/starred piece is followed by a token it cannot begin. -/
def matchYearsAt (cs : List Char) : Option ℕ :=
  let ds := cs.takeWhile Char.isDigit
  if ds = [] then none
  else
    let r0 := cs.dropWhile Char.isDigit
    let r1 := match r0 with
      | '+' :: r => r
      | r => r
    let r2 := r1.dropWhile pyIsSpace
    let unit : Option (List Char) :=
      if ("year".toList).isPrefixOf r2 then some (r2.drop 4)
      else if ("yr".toList).isPrefixOf r2 then some (r2.drop 2)
      else none
    match unit with
    | none => none
    | some r3 =>
      let r4 := match r3 with
        | 's' :: r => r
        | r => r
      let r5 := r4.dropWhile pyIsSpace
      if ("of".toList).isPrefixOf r5 then
        let r6 := (r5.drop 2).dropWhile pyIsSpace
        if ("experience".toList).isPrefixOf r6 then some (digitsVal ds) else none
      else none

/-- `re.search` of the years pattern: first matching position wins. -/
def searchYears : List Char → Option ℕ
  | [] => none
  | c :: cs =>
    match matchYearsAt (c :: cs) with
    | some n => some n
    | none => searchYears cs

def expert_keywords : List String :=
  ["expert in", "mastery of", "deep expertise", "pioneered", "led development",
   "architected", "senior", "principal"]

def advanced_keywords : List String :=
  ["proficient in", "strong command of", "extensive experience",
   "developed advanced", "implemented complex", "lead", "managed"]

def intermediate_keywords : List String :=
  ["experience with", "familiar with", "worked with", "used", "applied",
   "contributed to"]

def beginner_keywords : List String :=
  ["basic knowledge of", "exposure to", "learning", "studied", "introductory"]

/-- The four keyword scans, in source order, on the lowercased context. -/
def keyword_phase (context_lower : String) : String :=
  if expert_keywords.any (fun k => strContains context_lower k) then "Expert"
  else if advanced_keywords.any (fun k => strContains context_lower k) then "Advanced"
  else if intermediate_keywords.any (fun k => strContains context_lower k) then "Intermediate"
  else if beginner_keywords.any (fun k => strContains context_lower k) then "Beginner"
  else "Intermediate"

/-- `RecommenderEngine._detect_proficiency_level` (the `doc` argument is
unused by the source).  A years match of 0 falls through to the keyword
scans, exactly as the `if/elif` chain does. -/
def detect_proficiency_level (original_context : List String) : String :=
  let context_lower := lower (String.intercalate " " original_context)
  match searchYears context_lower.toList with
  | some years =>
    if 5 ≤ years then "Expert"
    else if 3 ≤ years then "Advanced"
    else if 1 ≤ years then "Intermediate"
    else keyword_phase context_lower
  | none => keyword_phase context_lower

/-! ## Streamlit `RecommendationEngine` / `CourseDatabase`

From `src/recommendation_engine.py`.  The course catalog is the flat list
of courses in file/list order; `skill_course_mapping[k]` receives one
append per occurrence of `k` among a course's `skills`. -/

structure Course where
  id : String
  title : String
  provider : String
  ctype : String
  difficulty : String
  duration_hours : ℚ
  rating : ℚ
  price : ℚ
  url : String
  skills : List String
deriving Repr, DecidableEq

/-- `user_prefs.get(...)` with the defaults of `generate_recommendations`:
`learningStyle "mixed"`, `budgetLimit 1000`, `timeLimit 100`. -/
structure UserPrefs where
  learningStyle : String
  budgetLimit : ℚ
  timeLimit : ℚ
deriving Repr, DecidableEq

def default_user_prefs : UserPrefs :=
  { learningStyle := "mixed", budgetLimit := 1000, timeLimit := 100 }

/-- A recommendation as built by `_create_recommendation` (fields used by
the engine and the claims; the `reason`/`link`/`skills` copies are
omitted). -/
structure Recommendation where
  id : String
  title : String
  provider : String
  ctype : String
  difficulty : String
  estimatedHours : ℚ
  rating : ℚ
  price : ℚ
  skillName : String
  priority : ℤ
deriving Repr, DecidableEq

/-- Stable insertion step: place `x` before the first element `y` with
`le x y`. -/
def insertLe {α : Type} (le : α → α → Bool) (x : α) : List α → List α
  | [] => [x]
  | y :: ys => if le x y then x :: y :: ys else y :: insertLe le x ys

/-- Stable sort (Python `list.sort` semantics for a total preorder `le`
meaning "may come no later than"). -/
def sortLe {α : Type} (le : α → α → Bool) (l : List α) : List α :=
  l.foldr (insertLe le) []

/-- `skill_course_mapping[skill.lower()]`: one entry per occurrence of the
skill among each course's `skills`, in catalog order. -/
def skill_course_matches (db : List Course) (skill : String) : List Course :=
  db.flatMap (fun c => c.skills.filterMap (fun s => if lower s = lower skill then some c else none))

/-- The `(-rating, price)` ascending sort key of `find_courses_for_skill`
as a "comes-no-later" Boolean relation. -/
def course_sort_le (a b : Course) : Bool :=
  if b.rating < a.rating then true
  else if a.rating = b.rating then decide (a.price ≤ b.price)
  else false

/-- `CourseDatabase.find_courses_for_skill`. -/
def find_courses_for_skill (db : List Course) (skill : String)
    (difficulty : Option String) (max_results : ℕ) : List Course :=
  let courses := skill_course_matches db skill
  let courses := match difficulty with
    | none => courses
    | some d => courses.filter (fun c => lower c.difficulty = lower d)
  (sortLe course_sort_le courses).take max_results

/-- `level_map.get(level, dflt)` of `_get_recommended_difficulty`. -/
def level_map_get (level : String) (dflt : ℕ) : ℕ :=
  if level = "None" then 0
  else if level = "Beginner" then 1
  else if level = "Familiar" then 1
  else if level = "Intermediate" then 2
  else if level = "Advanced" then 3
  else if level = "Expert" then 4
  else dflt

/-- `RecommendationEngine._get_recommended_difficulty`. -/
def get_recommended_difficulty (current_level target_level : String) : String :=
  if current_level = "None" then "Beginner"
  else
    let current_num := level_map_get current_level 0
    let target_num := level_map_get target_level 2
    if target_num ≤ 1 then "Beginner"
    else if target_num ≤ 2 then (if 0 < current_num then "Intermediate" else "Beginner")
    else (if 2 ≤ current_num then "Advanced" else "Intermediate")

/-- `RecommendationEngine._calculate_course_score`. -/
def calculate_course_score (course : Course) (learning_style : String) : ℚ :=
  let s0 : ℚ := course.rating * 20
  let s1 : ℚ := s0 +
    (if learning_style = "video"
        ∧ (lower course.provider = "youtube" ∨ lower course.provider = "udemy") then 10
     else if learning_style = "structured" ∧ lower course.provider = "coursera" then 10
     else if learning_style = "hands-on" ∧ strContains (lower course.title) "project" then 15
     else 0)
  let s2 : ℚ := s1 + (if course.price = 0 then 5 else max 0 (10 - course.price / 20))
  s2 + (if 10 ≤ course.duration_hours ∧ course.duration_hours ≤ 30 then 5
        else if course.duration_hours < 5 then -2
        else if 50 < course.duration_hours then -3
        else 0)

/-- `RecommendationEngine._select_best_course`: filter by remaining
budget, score, stable-sort by score descending, take the head. -/
def select_best_course (courses : List Course) (learning_style : String)
    (remaining_budget : ℚ) : Option Course :=
  let affordable := courses.filter (fun c => c.price ≤ remaining_budget)
  if affordable = [] then none
  else
    let scored := affordable.map (fun c => (calculate_course_score c learning_style, c))
    ((sortLe (fun a b => decide (b.1 ≤ a.1)) scored).head?).map (·.2)

/-- `RecommendationEngine._create_recommendation` (claim-relevant fields). -/
def create_recommendation (course : Course) (gap : SkillGap) (difficulty : String) :
    Recommendation :=
  { id := course.id
    title := course.title
    provider := course.provider
    ctype := course.ctype
    difficulty := difficulty
    estimatedHours := course.duration_hours
    rating := course.rating
    price := course.price
    skillName := gap.skillName
    priority := gap.priority }

/-- The gap sort key `(priority, gapType == 'missing')` of
`generate_recommendations`, ascending with `False < True`. -/
def gap_sort_le (g h : SkillGap) : Bool :=
  if g.priority < h.priority then true
  else if g.priority = h.priority then
    !(g.gapType = "missing" : Bool) || (h.gapType = "missing" : Bool)
  else false

/-- The main selection loop of `generate_recommendations`, carrying
`total_time` and `total_cost`; the `break` on `total_time >= time_limit`
ends the whole loop. -/
def rec_loop (db : List Course) (learning_style : String)
    (budget_limit time_limit : ℚ) :
    List SkillGap → ℚ → ℚ → List Recommendation
  | [], _, _ => []
  | gap :: rest, total_time, total_cost =>
    if time_limit ≤ total_time then []
    else
      let recommended_difficulty :=
        get_recommended_difficulty gap.currentLevel gap.targetLevel
      let courses := find_courses_for_skill db gap.skillName (some recommended_difficulty) 5
      if courses = [] then
        rec_loop db learning_style budget_limit time_limit rest total_time total_cost
      else
        match select_best_course courses learning_style (budget_limit - total_cost) with
        | none => rec_loop db learning_style budget_limit time_limit rest total_time total_cost
        | some best_course =>
          if total_cost + best_course.price ≤ budget_limit then
            create_recommendation best_course gap recommended_difficulty ::
              rec_loop db learning_style budget_limit time_limit rest
                (total_time + best_course.duration_hours) (total_cost + best_course.price)
          else rec_loop db learning_style budget_limit time_limit rest total_time total_cost

/-- `RecommendationEngine.generate_recommendations`. -/
def generate_recommendations (gaps : List SkillGap) (prefs : UserPrefs)
    (db : List Course) : List Recommendation :=
  if gaps = [] then []
  else rec_loop db prefs.learningStyle prefs.budgetLimit prefs.timeLimit
        (sortLe gap_sort_le gaps) 0 0

/-- Total price of a selected recommendation list. -/
def recs_total_price (recs : List Recommendation) : ℚ := (recs.map (·.price)).sum

/-- Total estimated hours of a selected recommendation list. -/
def recs_total_hours (recs : List Recommendation) : ℚ := (recs.map (·.estimatedHours)).sum

/-! ## VercelNext `RecommenderEngine._create_fallback_recommendations`

The placeholder path: every missing skill receives a synthetic course
titled `Learn {skill}`. -/

def common_job_skills : List (String × List String) :=
  [("data scientist",
    ["Python", "Machine Learning", "SQL", "Statistics", "Data Visualization"]),
   ("software engineer",
    ["Python", "JavaScript", "Git", "Algorithms", "System Design"]),
   ("machine learning engineer",
    ["Python", "Machine Learning", "Deep Learning", "MLOps", "Docker"])]

/-- The `required_skills` chosen by `_create_fallback_recommendations`:
the first `common_job_skills` entry whose key occurs in the lowercased
role, else the default triple. -/
def fallback_required_skills (target_job_role : String) : List String :=
  match common_job_skills.find? (fun p => strContains (lower target_job_role) p.1) with
  | some p => p.2
  | none => ["Python", "Machine Learning", "Data Analysis"]

/-- `missing_skills`: required skills whose lowercased name is not among
the user's lowercased KG skill names. -/
def fallback_missing_skills (user_skill_names : List String)
    (target_job_role : String) : List String :=
  (fallback_required_skills target_job_role).filter
    (fun s => !(user_skill_names.any (fun u => lower u = lower s)))

/-- The `recommendations` dict of the fallback path, as (skill, course
title) pairs: each missing skill maps to one course `Learn {skill}`. -/
def fallback_recommendations (user_skill_names : List String)
    (target_job_role : String) : List (String × String) :=
  (fallback_missing_skills user_skill_names target_job_role).map
    (fun s => (s, "Learn " ++ s))

/-! ## Concrete instances used in counterexamples and witnesses -/

/-- The number of merged extraction methods actually used by
`_score_skills`: `len(extraction_methods)` when the field exists, 0
otherwise (the boost is skipped entirely for unmerged skills). -/
def extraction_methods_count : Option (List String) → ℕ
  | none => 0
  | some ms => ms.length

/-- A single missing-skill gap for the skill `Python` at priority 1. -/
def cxGap : SkillGap :=
  { skillName := "Python", targetLevel := "Intermediate", currentLevel := "None",
    priority := 1, gapType := "missing", skillType := "required", level_gap := 3 }

/-- A free 200-hour beginner Python course. -/
def cxCourse : Course :=
  { id := "c1", title := "Python Marathon", provider := "Udemy", ctype := "course",
    difficulty := "Beginner", duration_hours := 200, rating := 4.5, price := 0,
    url := "u", skills := ["Python"] }

/-! # Theorems -/

/-! ## Claim C1: weighted match score -/

/-- Every value of `proficiency_map.get(..., 3)` is at least 1. -/
theorem proficiency_required_pos (l : String) : 1 ≤ proficiency_map_get l 3 := by
  unfold proficiency_map_get
  split_ifs <;> norm_num

/-- A requirement with nonnegative importance contributes a nonnegative
amount of matched weight. -/
theorem matched_contribution_nonneg (user_map : String → Option String)
    (r : RequiredSkill) (h : 0 ≤ r.importance) :
    0 ≤ matched_contribution user_map r := by
  unfold matched_contribution
  cases user_map r.uri with
  | none => simp
  | some lvl =>
    simp only
    split
    · exact h
    · exact mul_nonneg h (div_nonneg (Nat.cast_nonneg _) (Nat.cast_nonneg _))

/-- A requirement with nonnegative importance contributes at most its
importance: the under-level branch scales by `user/required < 1`. -/
theorem matched_contribution_le (user_map : String → Option String)
    (r : RequiredSkill) (h : 0 ≤ r.importance) :
    matched_contribution user_map r ≤ r.importance := by
  unfold matched_contribution
  cases user_map r.uri with
  | none => simpa using h
  | some lvl =>
    simp only
    split
    · exact le_refl _
    · rename_i hlt
      have hq : (0:ℚ) < (proficiency_map_get r.required_proficiency 3 : ℚ) := by
        exact_mod_cast Nat.lt_of_lt_of_le Nat.zero_lt_one (proficiency_required_pos _)
      have hu : (proficiency_map_get lvl 1 : ℚ) ≤
          (proficiency_map_get r.required_proficiency 3 : ℚ) := by
        exact_mod_cast Nat.le_of_lt (Nat.lt_of_not_le hlt)
      have hdiv : (proficiency_map_get lvl 1 : ℚ) /
          (proficiency_map_get r.required_proficiency 3 : ℚ) ≤ 1 :=
        (div_le_one hq).mpr hu
      exact mul_le_of_le_one_right h hdiv

/-- The accumulated matched importance is nonnegative. -/
theorem total_matched_nonneg (reqs : List RequiredSkill) (user_map : String → Option String)
    (h : ∀ r ∈ reqs, 0 ≤ r.importance) :
    0 ≤ total_matched_importance reqs user_map := by
  induction reqs with
  | nil => simp [total_matched_importance]
  | cons a l ih =>
    simp only [total_matched_importance, List.map_cons, List.sum_cons]
    have ha := matched_contribution_nonneg user_map a (h a (by simp))
    have hl := ih (fun r hr => h r (by simp [hr]))
    simpa [total_matched_importance] using add_nonneg ha hl

/-- The accumulated matched importance never exceeds the total required
importance. -/
theorem total_matched_le (reqs : List RequiredSkill) (user_map : String → Option String)
    (h : ∀ r ∈ reqs, 0 ≤ r.importance) :
    total_matched_importance reqs user_map ≤ total_required_importance reqs := by
  induction reqs with
  | nil => simp [total_matched_importance, total_required_importance]
  | cons a l ih =>
    simp only [total_matched_importance, total_required_importance, List.map_cons,
      List.sum_cons]
    have ha := matched_contribution_le user_map a (h a (by simp))
    have hl := ih (fun r hr => h r (by simp [hr]))
    exact add_le_add ha
      (by simpa [total_matched_importance, total_required_importance] using hl)

/-- Claim C1 (amended): for nonnegative importances the match score is
`100 × Σmatched_weight / Σimportance` and always lies in `[0, 100]`, with a
fully met requirement contributing its importance, an under-leveled one
`importance × (level/required)`, and a missing one 0 — but when
`Σimportance = 0` the code defines the score as 0, not 100. -/
theorem C1_match_score_amended (reqs : List RequiredSkill) (user_map : String → Option String)
    (h : ∀ r ∈ reqs, 0 ≤ r.importance) :
    (total_required_importance reqs = 0 → skill_match_percentage reqs user_map = 0)
    ∧ 0 ≤ skill_match_percentage reqs user_map
    ∧ skill_match_percentage reqs user_map ≤ 100 := by
  unfold skill_match_percentage
  by_cases h0 : 0 < total_required_importance reqs
  · have hm0 := total_matched_nonneg reqs user_map h
    have hml := total_matched_le reqs user_map h
    have hdiv1 : total_matched_importance reqs user_map / total_required_importance reqs ≤ 1 :=
      (div_le_one h0).mpr hml
    have hdiv0 : 0 ≤ total_matched_importance reqs user_map / total_required_importance reqs :=
      div_nonneg hm0 (le_of_lt h0)
    refine ⟨fun hz => absurd hz (ne_of_gt h0), ?_, ?_⟩
    · simp only [h0, if_true]
      positivity
    · simp only [h0, if_true]
      nlinarith
  · simp [h0]

/-- Claim C1 counterexample: with an empty requirement list the total
importance is 0 and the code's match score is 0, not the 100 the claim
specifies. -/
theorem C1_counterexample :
    total_required_importance [] = 0
    ∧ skill_match_percentage [] (fun _ => none) ≠ 100 := by
  constructor
  · simp [total_required_importance]
  · norm_num [skill_match_percentage, total_required_importance]

/-- Concrete witness for `C1_match_score_amended`. -/
theorem C1_match_score_witness :
    (total_required_importance [⟨"u1", 1, "Advanced"⟩] = 0 →
      skill_match_percentage [⟨"u1", 1, "Advanced"⟩] (fun _ => none) = 0)
    ∧ 0 ≤ skill_match_percentage [⟨"u1", 1, "Advanced"⟩] (fun _ => none)
    ∧ skill_match_percentage [⟨"u1", 1, "Advanced"⟩] (fun _ => none) ≤ 100 :=
  C1_match_score_amended _ _ (by intro r hr; simp at hr; simp [hr])

/-! ## Claim C2: gap classification is a partition -/

/-- Claim C2: every job requirement is classified into exactly one of
missing (skill absent), level gap (present below the required level), or
Strength (met — `_analyze_skill_gap` returns no gap record): the three
cases are exhaustive, mutually exclusive, and each holds exactly on its
stated condition. -/
theorem C2_classification (r : ReqSkillEntry) (lookup : String → Option ExtractedSkill)
    (ty : String) :
    ((∃ g, analyze_skill_gap r lookup ty = some g ∧ g.gapType = "missing") ∨
     (∃ g, analyze_skill_gap r lookup ty = some g ∧ g.gapType = "level") ∨
     analyze_skill_gap r lookup ty = none)
    ∧ ¬((∃ g, analyze_skill_gap r lookup ty = some g ∧ g.gapType = "missing") ∧
        (∃ g, analyze_skill_gap r lookup ty = some g ∧ g.gapType = "level"))
    ∧ ¬((∃ g, analyze_skill_gap r lookup ty = some g ∧ g.gapType = "missing") ∧
        analyze_skill_gap r lookup ty = none)
    ∧ ¬((∃ g, analyze_skill_gap r lookup ty = some g ∧ g.gapType = "level") ∧
        analyze_skill_gap r lookup ty = none)
    ∧ ((∃ g, analyze_skill_gap r lookup ty = some g ∧ g.gapType = "missing") ↔
        lookup (lower r.skill) = none)
    ∧ ((∃ g, analyze_skill_gap r lookup ty = some g ∧ g.gapType = "level") ↔
        ∃ cur, lookup (lower r.skill) = some cur ∧
          level_hierarchy_get cur.level 1 < level_hierarchy_get r.level 3)
    ∧ (analyze_skill_gap r lookup ty = none ↔
        ∃ cur, lookup (lower r.skill) = some cur ∧
          level_hierarchy_get r.level 3 ≤ level_hierarchy_get cur.level 1) := by
  rcases hl : lookup (lower r.skill) with _ | cur
  · simp [analyze_skill_gap, hl]
  · by_cases hc : level_hierarchy_get cur.level 1 < level_hierarchy_get r.level 3
    · simp [analyze_skill_gap, hl, hc, not_le.mpr hc]
    · simp [analyze_skill_gap, hl, hc, not_lt.mp hc]

/-- Concrete witness for `C2_classification` at an absent skill. -/
theorem C2_classification_witness :
    ((∃ g, analyze_skill_gap ⟨"Python", "Advanced", 1⟩ (fun _ => none) "required" = some g ∧
        g.gapType = "missing") ∨
     (∃ g, analyze_skill_gap ⟨"Python", "Advanced", 1⟩ (fun _ => none) "required" = some g ∧
        g.gapType = "level") ∨
     analyze_skill_gap ⟨"Python", "Advanced", 1⟩ (fun _ => none) "required" = none)
    ∧ ¬((∃ g, analyze_skill_gap ⟨"Python", "Advanced", 1⟩ (fun _ => none) "required" = some g ∧
          g.gapType = "missing") ∧
        (∃ g, analyze_skill_gap ⟨"Python", "Advanced", 1⟩ (fun _ => none) "required" = some g ∧
          g.gapType = "level"))
    ∧ ¬((∃ g, analyze_skill_gap ⟨"Python", "Advanced", 1⟩ (fun _ => none) "required" = some g ∧
          g.gapType = "missing") ∧
        analyze_skill_gap ⟨"Python", "Advanced", 1⟩ (fun _ => none) "required" = none)
    ∧ ¬((∃ g, analyze_skill_gap ⟨"Python", "Advanced", 1⟩ (fun _ => none) "required" = some g ∧
          g.gapType = "level") ∧
        analyze_skill_gap ⟨"Python", "Advanced", 1⟩ (fun _ => none) "required" = none)
    ∧ ((∃ g, analyze_skill_gap ⟨"Python", "Advanced", 1⟩ (fun _ => none) "required" = some g ∧
          g.gapType = "missing") ↔
        (fun (_ : String) => (none : Option ExtractedSkill)) (lower "Python") = none)
    ∧ ((∃ g, analyze_skill_gap ⟨"Python", "Advanced", 1⟩ (fun _ => none) "required" = some g ∧
          g.gapType = "level") ↔
        ∃ cur, (fun (_ : String) => (none : Option ExtractedSkill)) (lower "Python") = some cur ∧
          level_hierarchy_get cur.level 1 < level_hierarchy_get "Advanced" 3)
    ∧ (analyze_skill_gap ⟨"Python", "Advanced", 1⟩ (fun _ => none) "required" = none ↔
        ∃ cur, (fun (_ : String) => (none : Option ExtractedSkill)) (lower "Python") = some cur ∧
          level_hierarchy_get "Advanced" 3 ≤ level_hierarchy_get cur.level 1) :=
  C2_classification ⟨"Python", "Advanced", 1⟩ (fun _ => none) "required"

/-! ## Claim C3: gaps with no courses -/

/-- If no catalog course teaches a skill, `find_courses_for_skill` returns
the empty list for it at every difficulty. -/
theorem find_courses_nil (db : List Course) (s : String)
    (h : skill_course_matches db s = []) (d : Option String) (n : ℕ) :
    find_courses_for_skill db s d n = [] := by
  unfold find_courses_for_skill
  rw [h]
  cases d <;> simp [sortLe]

/-- The selection loop emits no recommendation for a skill not taught by
any catalog course. -/
theorem rec_loop_skill_not_in (db : List Course) (style : String) (budget time : ℚ)
    (s : String) (h : skill_course_matches db s = []) :
    ∀ (gl : List SkillGap) (t c : ℚ) (re : Recommendation),
      re ∈ rec_loop db style budget time gl t c → re.skillName ≠ s := by
  intro gl
  induction gl with
  | nil => intro t c re hre; simp [rec_loop] at hre
  | cons gap rest ih =>
    intro t c re hre
    rw [rec_loop] at hre
    by_cases ht : time ≤ t
    · simp [ht] at hre
    · simp only [ht, if_false] at hre
      by_cases hgs : gap.skillName = s
      · rw [if_pos] at hre
        · exact ih _ _ re hre
        · rw [hgs]; exact find_courses_nil db s h _ _
      · set courses := find_courses_for_skill db gap.skillName
          (some (get_recommended_difficulty gap.currentLevel gap.targetLevel)) 5 with hc
        by_cases hempty : courses = []
        · rw [if_pos hempty] at hre
          exact ih _ _ re hre
        · rw [if_neg hempty] at hre
          rcases hb : select_best_course courses style (budget - c) with _ | best
          · rw [hb] at hre
            exact ih _ _ re hre
          · rw [hb] at hre
            dsimp only at hre
            by_cases hcost : c + best.price ≤ budget
            · rw [if_pos hcost] at hre
              rcases List.mem_cons.mp hre with hhead | htail
              · rw [hhead]
                simpa [create_recommendation] using hgs
              · exact ih _ _ re htail
            · rw [if_neg hcost] at hre
              exact ih _ _ re hre

/-- Claim C3 (amended): the Streamlit engine silently drops a gap whose
skill has no catalog course — the output contains no entry for that skill
and no placeholder is emitted; the `Learn {skill}` placeholder exists only
in the VercelNext fallback path, where every missing skill does receive
one. -/
theorem C3_no_course_dropped (gaps : List SkillGap) (prefs : UserPrefs) (db : List Course)
    (s : String) (h : skill_course_matches db s = []) :
    (∀ re ∈ generate_recommendations gaps prefs db, re.skillName ≠ s)
    ∧ (∀ (user_skill_names : List String) (target : String),
        ∀ m ∈ fallback_missing_skills user_skill_names target,
          (m, "Learn " ++ m) ∈ fallback_recommendations user_skill_names target) := by
  constructor
  · intro re hre
    unfold generate_recommendations at hre
    by_cases hg : gaps = []
    · simp [hg] at hre
    · rw [if_neg hg] at hre
      exact rec_loop_skill_not_in db prefs.learningStyle prefs.budgetLimit prefs.timeLimit s h
        _ _ _ re hre
  · intro user target m hm
    unfold fallback_recommendations
    exact List.mem_map.mpr ⟨m, hm, rfl⟩

/-- Claim C3 counterexample: one gap against an empty course catalog
produces an empty recommendation list — the gap's skill gets no entry and
no placeholder, contradicting the claim. -/
theorem C3_counterexample :
    generate_recommendations [cxGap] default_user_prefs [] = []
    ∧ ([cxGap] : List SkillGap) ≠ [] := by
  constructor
  · norm_num +decide [generate_recommendations, rec_loop, sortLe, insertLe,
      find_courses_for_skill, skill_course_matches, default_user_prefs, cxGap,
      get_recommended_difficulty, List.flatMap_nil]
  · simp

/-- Concrete witness for `C3_no_course_dropped`. -/
theorem C3_witness :
    (∀ re ∈ generate_recommendations [cxGap] default_user_prefs [], re.skillName ≠ "Rust")
    ∧ (∀ (user_skill_names : List String) (target : String),
        ∀ m ∈ fallback_missing_skills user_skill_names target,
          (m, "Learn " ++ m) ∈ fallback_recommendations user_skill_names target) :=
  C3_no_course_dropped [cxGap] default_user_prefs [] "Rust" (by simp [skill_course_matches])

/-! ## Claim C8: budget and time constraints -/

/-- Loop invariant: if the running cost is within budget, the running cost
plus the price of everything the loop still selects stays within budget
(each selection is guarded by `total_cost + price ≤ budget_limit`). -/
theorem rec_loop_cost_bound (db : List Course) (style : String) (budget time : ℚ) :
    ∀ (gl : List SkillGap) (t c : ℚ), c ≤ budget →
      c + recs_total_price (rec_loop db style budget time gl t c) ≤ budget := by
  intro gl
  induction gl with
  | nil => intro t c hc; simp [rec_loop, recs_total_price, hc]
  | cons gap rest ih =>
    intro t c hc
    rw [rec_loop]
    by_cases ht : time ≤ t
    · simp [ht, recs_total_price, hc]
    · simp only [ht, if_false]
      set courses := find_courses_for_skill db gap.skillName
        (some (get_recommended_difficulty gap.currentLevel gap.targetLevel)) 5 with hcs
      by_cases hempty : courses = []
      · rw [if_pos hempty]; exact ih _ _ hc
      · rw [if_neg hempty]
        rcases hb : select_best_course courses style (budget - c) with _ | best
        · exact ih _ _ hc
        · dsimp only
          by_cases hcost : c + best.price ≤ budget
          · rw [if_pos hcost]
            have := ih (t + best.duration_hours) (c + best.price) hcost
            simp only [recs_total_price, List.map_cons, List.sum_cons,
              create_recommendation] at *
            linarith
          · rw [if_neg hcost]; exact ih _ _ hc

/-- Claim C8 (amended): the total price of the selected recommendations
never exceeds the budget limit; the time limit, by contrast, only stops
the loop from starting further courses and the final total hours can
exceed it (see the counterexample). -/
theorem C8_budget_respected (gaps : List SkillGap) (prefs : UserPrefs) (db : List Course)
    (h : 0 ≤ prefs.budgetLimit) :
    recs_total_price (generate_recommendations gaps prefs db) ≤ prefs.budgetLimit := by
  unfold generate_recommendations
  by_cases hg : gaps = []
  · simp only [hg, if_true, recs_total_price, List.map_nil, List.sum_nil]
    exact h
  · rw [if_neg hg]
    have := rec_loop_cost_bound db prefs.learningStyle prefs.budgetLimit prefs.timeLimit
      (sortLe gap_sort_le gaps) 0 0 h
    linarith

/-- Claim C8 counterexample: a single 200-hour course is selected under
the default 100-hour time limit, so the total scheduled hours exceed the
limit. -/
theorem C8_counterexample :
    ¬ (recs_total_hours (generate_recommendations [cxGap] default_user_prefs [cxCourse])
        ≤ default_user_prefs.timeLimit) := by
  have hval : recs_total_hours (generate_recommendations [cxGap] default_user_prefs [cxCourse])
      = 200 := by
    norm_num +decide [generate_recommendations, rec_loop, sortLe, insertLe, gap_sort_le,
      find_courses_for_skill, skill_course_matches, course_sort_le, default_user_prefs,
      cxGap, cxCourse, get_recommended_difficulty, level_map_get, select_best_course,
      calculate_course_score, create_recommendation, recs_total_hours, List.filterMap_cons,
      List.filter_cons, List.flatMap_cons, List.flatMap_nil, List.take_cons, List.head?]
  rw [hval]
  norm_num [default_user_prefs]

/-- Concrete witness for `C8_budget_respected`. -/
theorem C8_budget_witness :
    0 ≤ default_user_prefs.budgetLimit
    ∧ recs_total_price (generate_recommendations [cxGap] default_user_prefs [cxCourse])
        ≤ default_user_prefs.budgetLimit :=
  ⟨by norm_num [default_user_prefs],
   C8_budget_respected [cxGap] default_user_prefs [cxCourse]
     (by norm_num [default_user_prefs])⟩

/-! ## Claims C4 and C5: entity linking threshold -/

/-- Claim C4 (amended): the linker selects the argmax-similarity KG skill
and accepts a candidate exactly when its best similarity reaches the
threshold; candidates below the threshold are omitted from the returned
list entirely (only logged), not kept as category-unknown entries. -/
theorem C4_threshold_acceptance (cands : List LinkCandidate) (kg : List KGSkill)
    (threshold : ℚ) :
    link_entities_to_kg cands kg threshold =
      (cands.filter (fun c => threshold ≤ bestSimilarity c.sims)).map (mk_linked_skill kg)
    ∧ ∀ l ∈ link_entities_to_kg cands kg threshold, threshold ≤ l.similarity_score := by
  constructor
  · induction cands with
    | nil => simp [link_entities_to_kg]
    | cons c cs ih =>
      by_cases hc : threshold ≤ bestSimilarity c.sims
      · simp [link_entities_to_kg, List.filter_cons, hc] at *
        exact ih
      · simp [link_entities_to_kg, List.filter_cons, hc] at *
        exact ih
  · induction cands with
    | nil => simp [link_entities_to_kg]
    | cons c cs ih =>
      intro l hl
      by_cases hc : threshold ≤ bestSimilarity c.sims
      · simp only [link_entities_to_kg, List.foldr_cons, if_pos hc] at hl
        rcases List.mem_cons.mp hl with hh | ht
        · rw [hh]
          simpa [mk_linked_skill] using hc
        · exact ih l ht
      · simp only [link_entities_to_kg, List.foldr_cons, if_neg hc] at hl
        exact ih l hl

/-- Claim C4 counterexample: a candidate whose best similarity (0.5) is
below the 0.8 threshold yields an empty output — it is removed, not kept
unlinked with category unknown. -/
theorem C4_counterexample :
    link_entities_to_kg [⟨"Rust", [1/2]⟩] [⟨"skill_0", "Python"⟩] (4/5) = [] := by
  norm_num +decide [link_entities_to_kg, bestSimilarity, argmaxIdx, argmaxAux]

/-- Concrete witness for `C4_threshold_acceptance`. -/
theorem C4_threshold_witness :
    link_entities_to_kg [⟨"Rust", [1/2]⟩] [⟨"skill_0", "Python"⟩] (4/5) =
      (([⟨"Rust", [1/2]⟩] : List LinkCandidate).filter
        (fun c => (4:ℚ)/5 ≤ bestSimilarity c.sims)).map (mk_linked_skill [⟨"skill_0", "Python"⟩])
    ∧ ∀ l ∈ link_entities_to_kg [⟨"Rust", [1/2]⟩] [⟨"skill_0", "Python"⟩] (4/5),
        (4:ℚ)/5 ≤ l.similarity_score :=
  C4_threshold_acceptance [⟨"Rust", [1/2]⟩] [⟨"skill_0", "Python"⟩] (4/5)

/-- Claim C5: threshold monotonicity — every link accepted at threshold
`t` is also accepted at any threshold `t' ≤ t`; lowering the threshold
never removes a link. -/
theorem C5_threshold_monotone (cands : List LinkCandidate) (kg : List KGSkill)
    (t t' : ℚ) (h : t' ≤ t) :
    ∀ l ∈ link_entities_to_kg cands kg t, l ∈ link_entities_to_kg cands kg t' := by
  induction cands with
  | nil => simp [link_entities_to_kg]
  | cons c cs ih =>
    intro l hl
    by_cases hc : t ≤ bestSimilarity c.sims
    · simp only [link_entities_to_kg, List.foldr_cons, if_pos hc] at hl
      have hc' : t' ≤ bestSimilarity c.sims := le_trans h hc
      simp only [link_entities_to_kg, List.foldr_cons, if_pos hc']
      rcases List.mem_cons.mp hl with hh | ht
      · exact hh ▸ List.mem_cons_self _ _
      · exact List.mem_cons_of_mem _ (ih l ht)
    · simp only [link_entities_to_kg, List.foldr_cons, if_neg hc] at hl
      by_cases hc' : t' ≤ bestSimilarity c.sims
      · simp only [link_entities_to_kg, List.foldr_cons, if_pos hc']
        exact List.mem_cons_of_mem _ (ih l hl)
      · simp only [link_entities_to_kg, List.foldr_cons, if_neg hc']
        exact ih l hl

/-- Concrete witness for `C5_threshold_monotone`: a link accepted at 0.8
is still accepted at 0.5. -/
theorem C5_threshold_witness :
    (1:ℚ)/2 ≤ 4/5
    ∧ mk_linked_skill [⟨"skill_0", "Python"⟩] ⟨"Python", [9/10]⟩ ∈
        link_entities_to_kg [⟨"Python", [9/10]⟩] [⟨"skill_0", "Python"⟩] (1/2) :=
  ⟨by norm_num,
   C5_threshold_monotone [⟨"Python", [9/10]⟩] [⟨"skill_0", "Python"⟩] (4/5) (1/2)
     (by norm_num) _
     (by norm_num +decide [link_entities_to_kg, bestSimilarity, argmaxIdx, argmaxAux])⟩

/-! ## Claim C6: confidence scoring -/

/-- Every method base score is nonnegative. -/
theorem method_score_nonneg (m : String) : 0 ≤ method_score m := by
  unfold method_score
  split_ifs <;> norm_num

/-- The frequency bonus is nonnegative. -/
theorem frequency_boost_nonneg (n : ℕ) : 0 ≤ frequency_boost n := by
  unfold frequency_boost
  positivity

/-- The evidence bonus is nonnegative. -/
theorem evidence_boost_nonneg (n : ℕ) : 0 ≤ evidence_boost n := by
  unfold evidence_boost
  positivity

/-- The context bonus is nonnegative. -/
theorem context_boost_nonneg (n : ℕ) : 0 ≤ context_boost n := by
  unfold context_boost
  positivity

/-- The category bonus is nonnegative. -/
theorem category_boost_nonneg (c : String) : 0 ≤ category_boost c := by
  unfold category_boost
  split_ifs <;> norm_num

/-- Claim C6 (amended): the final confidence equals
`clamp(base + 0.1 × (number of merged extraction methods) + frequency_bonus
+ evidence_bonus + context_bonus + category_bonus, 0, 1)` — the
multi-method bonus is `0.1 × len(extraction_methods)` (0 when the skill
was never merged), not `0.1 × (distinct methods − 1)` as the spec states;
the code's intermediate cap of `base + bonus` at 1.0 coincides with the
single clamp because the remaining bonuses are nonnegative. -/
theorem C6_confidence_formula (m : String) (methods : Option (List String))
    (frequency evidence_len context_hits : ℕ) (category : String) :
    final_confidence m methods frequency evidence_len context_hits category =
      max 0 (min (method_score m + (extraction_methods_count methods : ℚ) * 0.1
        + frequency_boost frequency + evidence_boost evidence_len
        + context_boost context_hits + category_boost category) 1) := by
  have hrest : 0 ≤ frequency_boost frequency + evidence_boost evidence_len
      + context_boost context_hits + category_boost category :=
    add_nonneg (add_nonneg (add_nonneg (frequency_boost_nonneg _) (evidence_boost_nonneg _))
      (context_boost_nonneg _)) (category_boost_nonneg _)
  cases methods with
  | none =>
    unfold final_confidence base_score extraction_methods_count
    dsimp only
    have hb : 0 ≤ method_score m + (0:ℚ) * 0.1 := by
      simpa using method_score_nonneg m
    rw [max_eq_right]
    · ring_nf
    · refine le_min ?_ (by norm_num)
      push_cast
      nlinarith [method_score_nonneg m]
  | some ms =>
    unfold final_confidence base_score extraction_methods_count
    dsimp only
    have ha : 0 ≤ method_score m + (ms.length : ℚ) * 0.1 := by
      have := method_score_nonneg m
      positivity
    rw [max_eq_right]
    · rcases le_or_lt (method_score m + (ms.length : ℚ) * 0.1) 1 with hle | hgt
      · rw [min_eq_left hle]
      · have h1a : (1:ℚ) ≤ 1 + frequency_boost frequency + evidence_boost evidence_len
            + context_boost context_hits + category_boost category := by linarith
        have h1b : (1:ℚ) ≤ method_score m + (ms.length : ℚ) * 0.1 + frequency_boost frequency
            + evidence_boost evidence_len + context_boost context_hits
            + category_boost category := by linarith
        rw [min_eq_right (le_of_lt hgt), min_eq_right h1a, min_eq_right h1b]
    · refine le_min ?_ (by norm_num)
      linarith

/-- Claim C6 counterexample: a skill merged from the two methods ner and
pattern gets confidence 0.85 (bonus 0.1 × 2 on base 0.6), while the
spec's `0.1 × (distinct − 1)` formula predicts 0.75. -/
theorem C6_counterexample :
    final_confidence "ner" (some ["ner", "pattern"]) 0 0 0 "soft" = 0.85
    ∧ spec_confidence "ner" (some ["ner", "pattern"]) 0 0 0 "soft" = 0.75
    ∧ (0.85 : ℚ) ≠ 0.75 := by
  refine ⟨?_, ?_, by norm_num⟩
  · norm_num +decide [final_confidence, base_score, method_score, frequency_boost,
      evidence_boost, context_boost, category_boost]
  · norm_num +decide [spec_confidence, method_score, frequency_boost,
      evidence_boost, context_boost, category_boost]

/-! ## Claim C7: empty-input behaviour of phase-1 extraction -/

/-- Claim C7 (amended): empty or too-short (stripped length < 50) input
makes `extract_skills_phase1` return an ordinary empty skill list; it
never fails with an `InputError` on any input. -/
theorem C7_guard_returns_empty (pipeline : String → List ExtractedSkill) (text : String) :
    (text = "" ∨ text.trim.length < 50 → extract_skills_phase1 pipeline text = Except.ok [])
    ∧ ∀ e, extract_skills_phase1 pipeline text ≠ Except.error e := by
  unfold extract_skills_phase1
  constructor
  · intro h
    rw [if_pos h]
  · intro e
    split_ifs <;> simp

/-- Claim C7 counterexample: on empty input the extractor succeeds with an
empty list — it does not fail with an `InputError` as the claim states. -/
theorem C7_counterexample :
    extract_skills_phase1 (fun _ => []) "" = Except.ok [] := by rfl

/-- Concrete witness for `C7_guard_returns_empty`. -/
theorem C7_guard_witness :
    (("" : String) = "" ∨ ("" : String).trim.length < 50 →
      extract_skills_phase1 (fun _ => []) "" = Except.ok [])
    ∧ ∀ e, extract_skills_phase1 (fun _ => []) "" ≠ Except.error e :=
  C7_guard_returns_empty (fun _ => []) ""

/-! ## Claim C9: years-of-experience escalation -/

/-- Claim C9 counterexample: on the scenario text the detector returns
the default Intermediate, not Expert — the years regex requires the
contiguous phrase `N years of experience`, which this text lacks. -/
theorem C9_counterexample :
    detect_proficiency_level ["I have 5 years of Python and AWS experience"] = "Intermediate"
    ∧ detect_proficiency_level ["I have 5 years of Python and AWS experience"] ≠ "Expert" := by
  constructor <;> decide

/-- Claim C9 (amended): the scenario text yields Intermediate because the
years cue must read `N years of experience` contiguously; when the cue is
present, as in the variant text, a 5-year cue does escalate to Expert. -/
theorem C9_years_rule :
    detect_proficiency_level ["I have 5 years of Python and AWS experience"] = "Intermediate"
    ∧ detect_proficiency_level ["I have 5 years of experience in Python and AWS"] = "Expert" := by
  constructor <;> decide

/-! ## Claim C10: readiness score bounds -/

/-- With every priority in `[1, 5]` each gap weighs at least 1, so the
total weight is at least the number of gaps. -/
theorem gaps_total_weight_ge (gaps : List SkillGap)
    (h : ∀ g ∈ gaps, 1 ≤ g.priority ∧ g.priority ≤ 5) :
    (gaps.length : ℚ) ≤ gaps_total_weight gaps := by
  induction gaps with
  | nil => simp [gaps_total_weight]
  | cons g l ih =>
    have hg := h g (by simp)
    have hl := ih (fun x hx => h x (by simp [hx]))
    simp only [gaps_total_weight, List.map_cons, List.sum_cons, List.length_cons] at *
    have hw : (1:ℚ) ≤ 6 - (g.priority : ℚ) := by
      have : (g.priority : ℚ) ≤ 5 := by exact_mod_cast hg.2
      linarith
    push_cast
    linarith

/-- Claim C10: for a non-empty gap list whose priorities lie in `[1, 5]`
the readiness score lies in `[0, 80]` (the normalized penalty is at least
20), and the score is 100 on the empty gap list. -/
theorem C10_readiness_bounds (gaps : List SkillGap) (h1 : gaps ≠ [])
    (h2 : ∀ g ∈ gaps, 1 ≤ g.priority ∧ g.priority ≤ 5) :
    0 ≤ readiness_score gaps ∧ readiness_score gaps ≤ 80
    ∧ readiness_score ([] : List SkillGap) = 100 := by
  have hn : 0 < gaps.length := List.length_pos.mpr h1
  have hnq : (0:ℚ) < (gaps.length : ℚ) := by exact_mod_cast hn
  have hmw : (0:ℚ) < (gaps.length : ℚ) * 5 := by linarith
  have hexact : readiness_score_exact gaps =
      max 0 (100 - gaps_total_weight gaps / ((gaps.length : ℚ) * 5) * 100) := by
    unfold readiness_score_exact
    rw [if_neg h1, if_pos hmw]
  have himpact : (20:ℚ) ≤ gaps_total_weight gaps / ((gaps.length : ℚ) * 5) * 100 := by
    have htw := gaps_total_weight_ge gaps h2
    have hdiv : (gaps.length : ℚ) / ((gaps.length : ℚ) * 5) ≤
        gaps_total_weight gaps / ((gaps.length : ℚ) * 5) :=
      (div_le_div_iff_of_pos_right hmw).mpr htw
    have hval : (gaps.length : ℚ) / ((gaps.length : ℚ) * 5) = 1 / 5 := by
      field_simp
    rw [hval] at hdiv
    linarith
  have hle80 : readiness_score_exact gaps ≤ 80 := by
    rw [hexact]
    exact max_le (by norm_num) (by linarith)
  have h0 : 0 ≤ readiness_score_exact gaps := by
    rw [hexact]
    exact le_max_left _ _
  refine ⟨?_, ?_, ?_⟩
  · exact Int.le_floor.mpr (by exact_mod_cast h0)
  · have := Int.floor_mono hle80
    simpa using this
  · norm_num [readiness_score, readiness_score_exact]

/-- Concrete witness for `C10_readiness_bounds`. -/
theorem C10_readiness_witness :
    0 ≤ readiness_score [cxGap] ∧ readiness_score [cxGap] ≤ 80
    ∧ readiness_score ([] : List SkillGap) = 100 :=
  C10_readiness_bounds [cxGap] (by simp)
    (by intro g hg; simp at hg; rw [hg]
        exact ⟨by norm_num [cxGap], by norm_num [cxGap]⟩)

end ResumeAnalyzer
